import Mathlib

/-!
Verification of the transcript-to-document pipeline of the lecture-notes
generator (src/core_processing.py, called from src/app.py): the transcription
stage `transcribe_audio_whisper`, the note-synthesis stage
`generate_notes_with_gemini_api` and the document-rendering stage
`create_pdf_from_text`, shallowly embedded together with their external
collaborators (the speech-to-text model handle, the filesystem, the
generative-text service and its module-level configuration), and theorems
about their error-signaling, progress-reporting and request-construction
behaviour.
-/

namespace LectureNotes

/-! ## Substring containment: the Python `in` operator on strings -/

/-- Boolean test that `needle` is a prefix of `hay`.  Equivalent to
`List.isPrefixOf`, but matching on the needle first, so that an exhausted
needle reduces to `true` even when the tail of the haystack is symbolic. -/
def isPrefixSeq : List Char → List Char → Bool
  | [], _ => true
  | a :: as, hay =>
      match hay with
      | [] => false
      | b :: bs => a == b && isPrefixSeq as bs

/-- Boolean test that `needle` occurs contiguously inside the character list,
mirroring the Python expression `needle in hay` on strings. -/
def containsSeq (needle : List Char) : List Char → Bool
  | [] => needle.isEmpty
  | c :: rest => isPrefixSeq needle (c :: rest) || containsSeq needle rest

/-- Python `sub in s` for strings. -/
def strContains (s sub : String) : Bool :=
  containsSeq sub.data s.data

/-! ## The transcription stage: `transcribe_audio_whisper`
(src/core_processing.py lines 81-123) -/

/-- Outcome of `whisper_model_instance.transcribe(path)`: either a result
whose `"text"` entry is `text`, or a raised exception rendered as `msg`. -/
inductive TranscribeOutcome where
  | ok (text : String)
  | raises (msg : String)

/-- Events performed by the transcription stage, in order: progress-callback
invocations, the `os.path.exists` and `os.path.getsize` accesses to the audio
path, and the model `transcribe` call.  Recording them makes the claims about
"no model call" and "no file access" statable. -/
inductive TEvent where
  | progress (n : Nat)
  | fsExists (p : String)
  | fsGetSize (p : String)
  | modelTranscribe (p : String)

/-- The event is a model `transcribe` call. -/
def TEvent.isModelCall : TEvent → Bool
  | modelTranscribe _ => true
  | _ => false

/-- The event is a filesystem access (`os.path.exists` or `os.path.getsize`). -/
def TEvent.isFileAccess : TEvent → Bool
  | fsExists _ => true
  | fsGetSize _ => true
  | _ => false

/-- Shallow embedding of `transcribe_audio_whisper(audio_file_path,
whisper_model_instance, progress_callback=None)`.  The model handle is an
`Option` of a function from the audio path to the outcome of its `transcribe`
call; the filesystem maps a path to `none` (absent) or `some size`;
`hasCallback` records whether a progress callback was supplied.  Returns the
transcript-or-error string of the Python function together with the ordered
trace of events it performs. -/
def transcribe_audio_whisper (audio_file_path : String)
    (whisper_model_instance : Option (String → TranscribeOutcome))
    (hasCallback : Bool) (fs : String → Option Nat) : String × List TEvent :=
  match whisper_model_instance with
  | none =>
      ("Error: Whisper model not loaded. Cannot transcribe.",
       if hasCallback then [TEvent.progress 0] else [])
  | some model =>
      match fs audio_file_path with
      | none =>
          ("Error: Audio file not found at \x27" ++ audio_file_path ++ "\x27",
           TEvent.fsExists audio_file_path ::
             (if hasCallback then [TEvent.progress 0] else []))
      | some size =>
          if size = 0 then
            ("Error: Audio file at \x27" ++ audio_file_path ++
               "\x27 is empty. Cannot transcribe.",
             TEvent.fsExists audio_file_path :: TEvent.fsGetSize audio_file_path ::
               (if hasCallback then [TEvent.progress 0] else []))
          else
            let before :=
              TEvent.fsExists audio_file_path :: TEvent.fsGetSize audio_file_path ::
                ((if hasCallback then [TEvent.progress 10] else []) ++
                  [TEvent.modelTranscribe audio_file_path])
            match model audio_file_path with
            | TranscribeOutcome.raises msg =>
                ("An unexpected error occurred during Whisper transcription: " ++ msg,
                 before ++ (if hasCallback then [TEvent.progress 0] else []))
            | TranscribeOutcome.ok text =>
                let events := before ++ (if hasCallback then [TEvent.progress 100] else [])
                if text.trim = "" then
                  ("Whisper recognized no speech or produced empty transcription.", events)
                else
                  (text.trim, events)

/-- The sequence of percentages passed to the progress callback, in order. -/
def progressValues (events : List TEvent) : List Nat :=
  events.filterMap fun e =>
    match e with
    | TEvent.progress n => some n
    | _ => none

/-- The list of naturals is monotonically non-decreasing. -/
def nondecreasing : List Nat → Bool
  | [] => true
  | [_] => true
  | a :: b :: rest => decide (a ≤ b) && nondecreasing (b :: rest)

/-- A model handle whose `transcribe` call always succeeds with fixed text. -/
def okModel : String → TranscribeOutcome := fun _ =>
  TranscribeOutcome.ok " photosynthesis converts light into chemical energy "

/-- A model handle whose `transcribe` call always raises. -/
def throwModel : String → TranscribeOutcome := fun _ => TranscribeOutcome.raises "boom"

/-- A filesystem in which every path names a 5-byte file. -/
def fsFive : String → Option Nat := fun _ => some 5

/-- A filesystem with no files. -/
def fsMissing : String → Option Nat := fun _ => none

/-- A filesystem in which every path names a zero-byte file. -/
def fsZero : String → Option Nat := fun _ => some 0
/-- Literal text of the enhanced_prompt f-string in generate_notes_with_gemini_api, from the start of the string up to the note_style_prompt placeholder (core_processing.py lines 143-266). -/
def promptPart1 : String :=
  "You are an elite educational AI. Your primary task is to convert the provided transcript into TWO distinct Markdown outputs: (1) Comprehensive study notes, and (2) A personalized teaching explanation. Adhere STRICTLY to all formatting rules.\n"
  ++ "\n"
  ++ "                **PART 1: ENHANCED STUDY NOTES**\n"
  ++ "\n"
  ++ "                **Formatting Rules - CRITICAL Adherence Required:**\n"
  ++ "                1.  **ABSOLUTE DOCUMENT START - H1 Main Title:** The entire Markdown output for Part 1 MUST begin IMMEDIATELY with a single H1 heading (e.g., `# Lecture Title`). There must be NO characters, NO blank lines, NO whitespace, NO comments, and NO other Markdown elements of any kind preceding this H1 heading. This H1 heading is the very first line of the output. It must be a standalone line and NOT wrapped in any other block-level element (like a paragraph, blockquote, or div). This is the ONLY H1 heading in the entire document.\n"
  ++ "                2.  **Section Headings (H2):** All main sections (e.g., Learning Objectives, Key Concepts, Core Content topics) MUST use H2 headings (e.g., `## 2. Key Concepts`).\n"
  ++ "                3.  **Subsection Headings (H3):** All subsections within H2 sections (e.g., specific concepts under \"Core Content\") MUST use H3 headings (e.g., `### 3.1. Specific Concept`).\n"
  ++ "                4.  **NO DEEPER HEADINGS (H4+):** STRICTLY DO NOT use H4 (####), H5 (#####), or any deeper heading levels for any titles, sub-titles, or structural elements.\n"
  ++ "                5.  **Formatting Sub-items within H3:** For elements like \x27Why This Matters\x27, \x27Prerequisites\x27, \x27Worked Examples\x27, individual examples, or \x27Try It Yourself\x27 points that fall under an H3 subsection, use ONLY bolded text (e.g., `**Why This Matters:** This is important because...`), bulleted lists (`* Item`), or numbered lists (`1. Item`). DO NOT use H4 or deeper headings for these. For instance, a worked example introduction should be `**Worked Example 1:** Description`, not `#### Worked Example 1`.\n"
  ++ "\n"
  ++ "                **Content & Structure - Study Notes:**\n"
  ++ "\n"
  ++ "                **Enhanced Content Elements for Study Notes (Reminder: Format these using bold text or lists within H3 sections, NOT H4+ headings):**\n"
  ++ "\n"
  ++ "                📚 **Conceptual Framework:**\n"
  ++ "                - Within an H3 section for a major concept, start with `**Why This Matters:** ` (bolded text) followed by its context.\n"
  ++ "                - If applicable, include `**Prerequisites:** ` (bolded text) followed by the prerequisites.\n"
  ++ "                - If relevant, include `**Common Misconceptions:** ` (bolded text, perhaps in an admonition-like format if possible using Markdown blockquotes with a leading bold title) for common errors.\n"
  ++ "\n"
  ++ "                🎯 **Visual Learning Aids:**\n"
  ++ "                - Create ASCII diagrams or flowcharts for processes.\n"
  ++ "                - Use tables to compare/contrast related concepts.\n"
  ++ "                - Include `**Quick Reference:** ` boxes (e.g., using admonitions or styled blockquotes) with formulas/syntax.\n"
  ++ "\n"
  ++ "                💡 **Learning Enhancements:**\n"
  ++ "                - Add `**Pro Tips:** ` (bolded) from industry experience.\n"
  ++ "                - Include `**Warning/Pitfall:** ` sections (e.g., using admonitions) for common errors.\n"
  ++ "                - Create `**Memory Tricks:** ` or mnemonics for complex concepts.\n"
  ++ "\n"
  ++ "                🔧 **Practical Elements:**\n"
  ++ "                - Within each major concept\x27s H3 section, introduce worked examples with `**Worked Examples:**` (bolded text).\n"
  ++ "                - Each individual example should be clearly delineated (e.g., `**Example 1:** Name of Example` or using a list item) followed by code blocks and explanations as requested. Do NOT use H4 for individual examples.\n"
  ++ "                - Include `**Try It Yourself:** ` (bolded text) followed by mini-exercises.\n"
  ++ "                - Add `**Real Industry Scenario:** ` (bolded text) followed by case studies.\n"
  ++ "\n"
  ++ "                📊 **Code & Technical Content:**\n"
  ++ "                - All code blocks must be production-ready with error handling.\n"
  ++ "                - Include multiple implementation approaches when relevant.\n"
  ++ "                - Add performance considerations and Big O notation.\n"
  ++ "                - Show both \"beginner-friendly\" and \"optimized\" versions.\n"
  ++ "\n"
  ++ "                **Mandatory Sections for Study Notes (use H2 for these section titles, ensure content adheres to heading depth rules):**\n"
  ++ "                1. ## Learning Objectives (at the start)\n"
  ++ "                2. ## Key Concepts & Vocabulary (with etymology/intuition; sub-definitions under H3 if needed, or bolded terms)\n"
  ++ "                3. ## Core Content (organized by topic, using H2 for main topics and H3 for subtopics)\n"
  ++ "                4. ## Practical Applications (3+ real-world examples, use H3 for each application title)\n"
  ++ "                5. ## Common Interview Questions & Answers\n"
  ++ "                    - Identify 3-5 common interview questions that could be asked based on the core concepts of this lecture.\n"
  ++ "                    - For each question:\n"
  ++ "                    - State the question clearly (you can use H3 for each question, or a bolded list item like `* **Question:** What is...?`).\n"
  ++ "                    - Provide a concise, accurate, and comprehensive answer immediately following the question. The answer should be plain paragraph text, potentially with bullet points if listing items.\n"
  ++ "                    - Ensure the answer is directly derived from the lecture content and explains the concept thoroughly enough for an interview setting.\n"
  ++ "                    - If the lecture content does not naturally lend itself to distinct interview questions, state \"No specific interview questions directly arise from this lecture\x27s core content.\" under this H2 heading.\n"
  ++ "                6. ## Further Learning Resources with proper links\n"
  ++ "                7. ## Quick Review Checklist\n"
  ++ "\n"
  ++ "\n"
  ++ "                **PART 2: PROFESSIONAL-LEVEL PERSONALIZED TEACHING EXPLANATION**\n"
  ++ "\n"
  ++ "                After the comprehensive study notes, create a separate, substantial section precisely titled:\n"
  ++ "\n"
  ++ "                ## 🎓 Let Me Explain This Like We\x27re Colleagues\n"
  ++ "\n"
  ++ "                Adopt the persona of an experienced, articulate, and engaging senior colleague or mentor guiding a bright junior colleague or advanced student through the complexities of the lecture topic. The goal is deep conceptual understanding and intuition, not just surface-level recall. This section should be as valuable, if not more so, than the formal notes for true learning.\n"
  ++ "\n"
  ++ "                **Core Philosophy for This Section:**\n"
  ++ "                *   **\"Why before What\":** Always explain the *motivation* and *purpose* behind a concept before diving into its mechanics. Why does this exist? What problem does it solve?\n"
  ++ "                *   **Intuition First, Formalism Later (If Necessary):** Build a strong intuitive grasp using analogies and simpler terms. Formal definitions or mathematical rigor should only follow if it genuinely aids deeper understanding for this audience, and should still be explained clearly.\n"
  ++ "                *   **Connect the Dots:** Explicitly show how different concepts within the lecture (and potentially related prior knowledge) link together to form a cohesive picture.\n"
  ++ "                *   **Beyond the Obvious:** Offer insights that go beyond textbook definitions, perhaps touching upon historical context (briefly, if relevant), common pitfalls in application, or subtle nuances often missed by beginners.\n"
  ++ "\n"
  ++ "                **Structure and Content Elements for Each Major Concept/Topic Covered:**\n"
  ++ "\n"
  ++ "                1.  **The \"Big Idea\" & Its Significance (The \"Why\"):**\n"
  ++ "                    *   Start with a compelling hook or question related to the concept.\n"
  ++ "                    *   Clearly state the core problem or need the concept addresses.\n"
  ++ "                    *   Explain its importance in the broader field or for specific applications (e.g., \"Why is understanding operator precedence non-negotiable for any serious Python developer?\").\n"
  ++ "\n"
  ++ "                2.  **Intuitive Explanation(s) (The \"How it Works, Simply\"):**\n"
  ++ "                    *   **Masterful Analogies (Minimum 2 per key idea):** Go beyond simple comparisons. Develop rich, well-explained analogies from diverse domains (technology, nature, history, everyday life, complex systems like city planning or an orchestra) that illuminate the core mechanics and relationships. Explain *how* the analogy maps to the concept.\n"
  ++ "                    *   **Storytelling/Scenario-Based Walkthroughs:** For processes or algorithms, narrate a step-by-step scenario as if solving a real, relatable problem. Show the concept in action.\n"
  ++ "                    *   **Multiple Angles of Attack:** Explain the same core idea from at least two different perspectives or using different mental models to cater to varied learning styles.\n"
  ++ "\n"
  ++ "                3.  **Key Distinctions & Nuances (The \"Watch Out For This\"):**\n"
  ++ "                    *   **Clarify Common Confusion Points:** Proactively address areas where students typically get stuck or misunderstand. (\"A frequent point of confusion is X, but think of it this way...\")\n"
  ++ "                    *   **Subtle but Crucial Differences:** If there are closely related concepts, spend time clearly differentiating them (e.g., \"equality `==` vs. identity `is` in Python – subtle but critical!\").\n"
  ++ "                    *   **Edge Cases & Limitations (Briefly):** Hint at situations where the concept might break down or have specific limitations, fostering critical thinking.\n"
  ++ "\n"
  ++ "                4.  **Bridging to Practicality (The \"So What? How is this Used?\"):**\n"
  ++ "                    *   **Illustrative Mini-Examples (Code or Pseudocode if applicable):** Provide concise, heavily-commented code snippets or clear pseudocode that demonstrate the concept in a simplified, practical context. Focus on clarity of the concept, not complex application logic.\n"
  ++ "                    *   **Real-World Implications (Beyond the Obvious):** Briefly touch upon how this concept underpins more advanced topics or enables significant real-world technologies or solutions.\n"
  ++ "\n"
  ++ "                5.  **\"Aha!\" Moment Synthesis (The \"Putting It All Together\"):**\n"
  ++ "                    *   Conclude the explanation of each major concept with a summary that crystallizes the main takeaway or the \"aha!\" insight.\n"
  ++ "                    *   Use reflective questions like, \"So, what\x27s the golden rule here?\" or \"What\x27s the one thing you absolutely must remember about X?\"\n"
  ++ "\n"
  ++ "                **Teaching Style Guidelines for This Section:**\n"
  ++ "                *   **Professional yet Conversational:** Maintain an intelligent, articulate tone suitable for an advanced learner (\"you,\" \"we,\" \"let\x27s explore,\" \"consider this scenario\"). Avoid overly simplistic or patronizing language.\n"
  ++ "                *   **Clarity and Precision:** While using analogies, ensure the underlying technical points are communicated accurately.\n"
  ++ "                *   **Enthusiasm and Engagement:** Convey a genuine passion for the subject matter.\n"
  ++ "                *   **Strategic Use of Formatting:** Use bolding for emphasis on key terms or insights. Use bullet points or numbered lists for clarity where appropriate within explanations.\n"
  ++ "                *   **Minimal Emojis:** Use emojis *very* sparingly, only if they add significant, professional-level emphasis or a touch of lightheartedness where appropriate (e.g., a single 💡 for a key insight). The focus is on rich textual explanation.\n"
  ++ "\n"
  ++ "\n"
  ++ "                **Example of Desired Depth and Tone (Expanding on Previous Example):**\n"
  ++ "\n"
  ++ "                *Instead of just the ice cream analogy for linear regression, consider this structure:*\n"
  ++ "\n"
  ++ "                \"Alright, let\x27s talk about linear regression. **Why does this even exist?** Imagine you\x27re a data scientist at a streaming service. Your boss wants to know: if we spend more on marketing a new show, will we actually get significantly more new subscribers? You\x27ve got data on past shows – marketing spend and new sign-ups. Linear regression is essentially your smart tool for trying to draw the most honest, representative straight line through that scattered data.\n"
  ++ "\n"
  ++ "                **So, how does it \x27find\x27 this line?**\n"
  ++ "                *   **Analogy 1: The \x27Fairest Referee\x27.** Think of each data point (a show\x27s marketing spend and sign-ups) as a player in a game. The regression line is like a referee trying to position themselves on the field such that they are, on average, as close as possible to all players simultaneously. It\x27s not going to be perfectly next to every player, but it\x27s the \x27least wrong\x27 position overall. Mathematically, it\x27s minimizing the sum of the squared distances (the \x27errors\x27) from each point to the line. Why squared? It penalizes big misses more heavily and makes the math work out nicely.\n"
  ++ "                *   **Analogy 2: The \x27Economic Forecaster\x27s Trend Line\x27.** You\x27ve seen those charts of stock prices or economic indicators with a line cutting through them? That\x27s often a regression line (or a more complex version). It\x27s trying to capture the underlying trend, smoothing out the daily noise. It helps answer: \x27Generally, is this going up or down, and how steeply?\x27\n"
  ++ "\n"
  ++ "                **A common point of confusion:** People sometimes think linear regression *predicts the future with certainty*. Not quite. It gives you the *best linear estimate* based on past data. The real world has more variables and randomness. So, the line helps us understand the *relationship* and make *informed estimations*, but it\x27s not a crystal ball. Another nuance is that \x27linear\x27 doesn\x27t just mean a straight line in raw X vs. Y; you can transform your variables (e.g., log(X)) and still fit a linear model to that transformed relationship.\n"
  ++ "\n"
  ++ "                **Practically, in Python (with Scikit-learn, for instance),** you\x27d feed it your `marketing_spend` (X) and `new_signups` (Y) data. It then calculates the slope (how many more sign-ups you get for each extra dollar spent, on average) and the intercept (the baseline sign-ups if marketing spend was zero).\n"
  ++ "\n"
  ++ "                **The \x27Aha!\x27 moment:** Linear regression isn\x27t just about drawing a line; it\x27s about quantifying a linear relationship between variables in the presence of noise, allowing us to understand trends and make predictions, however imperfect. It\x27s a foundational tool for understanding how one thing influences another.\"\n"
  ++ "\n"
  ++ "\n"
  ++ "                **Additional Focus for Both Parts (Study Notes & Teaching Explanation):**\n"
  ++ "                "

/-- Literal text of the enhanced_prompt f-string between the note_style_prompt placeholder and the text_input placeholder. -/
def promptPart2 : String :=
  "\n"
  ++ "\n"
  ++ "                **Transcript:**\n"
  ++ "                ---\n"
  ++ "                "

/-- Literal text of the enhanced_prompt f-string after the text_input placeholder, to the end of the string. -/
def promptPart3 : String :=
  "\n"
  ++ "                ---\n"
  ++ "\n"
  ++ "                **Final Instruction:** Generate both Part 1 and Part 2 with clear separation. The Study Notes (Part 1) MUST adhere to all specified formatting rules, especially the H1, H2, H3 heading structure and the absolute start of the document with the H1 title. The teaching explanation (Part 2) should follow its own distinct style guide.\n"
  ++ "\n"
  ++ "        "

/-- Literal text of the html_content f-string in create_pdf_from_text, from the start of the string up to the title placeholder (core_processing.py lines 303-308). -/
def htmlTemplatePre : String :=
  "\n"
  ++ "        <!DOCTYPE html>\n"
  ++ "        <html>\n"
  ++ "        <head>\n"
  ++ "            <meta charset=\"utf-8\">\n"
  ++ "            <title>"

/-- Literal text of the html_content f-string between the title placeholder and the markdown body placeholder (the full embedded CSS). -/
def htmlTemplateMid : String :=
  "</title>\n"
  ++ "            <style>\n"
  ++ "                @page \x7b\n"
  ++ "                    size: A4;\n"
  ++ "                    margin: 1in;\n"
  ++ "                \x7d\n"
  ++ "                body \x7b\n"
  ++ "                    font-family: \x27Arial\x27, sans-serif;\n"
  ++ "                    line-height: 1.6;\n"
  ++ "                    color: #333;\n"
  ++ "                    font-size: 10pt;\n"
  ++ "                    margin: 0;\n"
  ++ "                    padding: 0;\n"
  ++ "                \x7d\n"
  ++ "                h1 \x7b\n"
  ++ "                    font-size: 2.2em;\n"
  ++ "                    color: #1a237e;\n"
  ++ "                    text-align: center;\n"
  ++ "                    margin-top: 1.5em;\n"
  ++ "                    margin-bottom: 0.8em;\n"
  ++ "                    border-bottom: 3px double #b0c4de;\n"
  ++ "                    padding-bottom: 0.7em;\n"
  ++ "                    padding-left: 0;\n"
  ++ "                \x7d\n"
  ++ "                h2 \x7b\n"
  ++ "                    font-size: 1.6em;\n"
  ++ "                    color: #2c3e50;\n"
  ++ "                    margin-top: 1.5em;\n"
  ++ "                    margin-bottom: 0.7em;\n"
  ++ "                    border-left: 6px solid #3498db;\n"
  ++ "                    padding-left: 15px;\n"
  ++ "                    background-color: #f8fbfc;\n"
  ++ "                    padding-top: 5px;\n"
  ++ "                    padding-bottom: 5px;\n"
  ++ "                \x7d\n"
  ++ "                h3 \x7b\n"
  ++ "                    font-size: 1.3em;\n"
  ++ "                    color: #34495e;\n"
  ++ "                    margin-top: 1.2em;\n"
  ++ "                    margin-bottom: 0.6em;\n"
  ++ "                    border-bottom: 1px dashed #cccccc;\n"
  ++ "                    padding-bottom: 0.3em;\n"
  ++ "                \x7d\n"
  ++ "                h4 \x7b\n"
  ++ "                    font-size: 1.1em;\n"
  ++ "                    color: #555;\n"
  ++ "                    margin-top: 1em;\n"
  ++ "                    margin-bottom: 0.4em;\n"
  ++ "                \x7d\n"
  ++ "                p \x7b\n"
  ++ "                    margin-bottom: 1em;\n"
  ++ "                    text-align: justify;\n"
  ++ "                \x7d\n"
  ++ "                ul, ol \x7b\n"
  ++ "                    margin-left: 30px;\n"
  ++ "                    margin-bottom: 1em;\n"
  ++ "                    padding-left: 0;\n"
  ++ "                \x7d\n"
  ++ "                li \x7b\n"
  ++ "                    margin-bottom: 0.6em;\n"
  ++ "                \x7d\n"
  ++ "                strong \x7b\n"
  ++ "                    font-weight: bold;\n"
  ++ "                    color: #004d40;\n"
  ++ "                \x7d\n"
  ++ "                em \x7b\n"
  ++ "                    font-style: italic;\n"
  ++ "                    color: #884400;\n"
  ++ "                \x7d\n"
  ++ "                pre \x7b\n"
  ++ "                    background-color: #f4f7f6; /* Lighter background for code blocks */\n"
  ++ "                    border: 1px solid #d4deda;\n"
  ++ "                    border-left: 4px solid #4CAF50; /* Accent border for code blocks */\n"
  ++ "                    border-radius: 6px;\n"
  ++ "                    padding: 15px;\n"
  ++ "                    font-family: \x27Courier New\x27, Courier, monospace; /* Monospaced font */\n"
  ++ "                    font-size: 0.9em;\n"
  ++ "                    overflow-x: auto; /* Enable horizontal scroll for long lines */\n"
  ++ "                    white-space: pre-wrap; /* Wrap long lines */\n"
  ++ "                    word-wrap: break-word; /* Break words if necessary */\n"
  ++ "                    margin-top: 1.5em;\n"
  ++ "                    margin-bottom: 1.5em;\n"
  ++ "                    line-height: 1.4;\n"
  ++ "                    color: #000000; /* Darker text for better contrast */\n"
  ++ "                \x7d\n"
  ++ "                code \x7b\n"
  ++ "                    font-family: \x27Courier New\x27, Courier, monospace;\n"
  ++ "                    background-color: #e8e8e8; /* Slightly darker background for inline code */\n"
  ++ "                    padding: 2px 5px;\n"
  ++ "                    border-radius: 4px;\n"
  ++ "                    font-size: 0.95em;\n"
  ++ "                    color: #c7254e; /* Distinct color for inline code */\n"
  ++ "                \x7d\n"
  ++ "                table \x7b\n"
  ++ "                    width: 100%;\n"
  ++ "                    border-collapse: collapse;\n"
  ++ "                    margin-top: 1.5em;\n"
  ++ "                    margin-bottom: 1.5em;\n"
  ++ "                    font-size: 0.95em;\n"
  ++ "                \x7d\n"
  ++ "                th, td \x7b\n"
  ++ "                    border: 1px solid #ccc;\n"
  ++ "                    padding: 8px;\n"
  ++ "                    text-align: left;\n"
  ++ "                \x7d\n"
  ++ "                th \x7b\n"
  ++ "                    background-color: #f2f2f2;\n"
  ++ "                    font-weight: bold;\n"
  ++ "                    color: #444;\n"
  ++ "                \x7d\n"
  ++ "                tr:nth-child(even) \x7b\n"
  ++ "                    background-color: #f9f9f9;\n"
  ++ "                \x7d\n"
  ++ "            </style>\n"
  ++ "        </head>\n"
  ++ "        <body>\n"
  ++ "            "

/-- Literal text of the html_content f-string after the markdown body placeholder, to the end of the string. -/
def htmlTemplatePost : String :=
  "\n"
  ++ "        </body>\n"
  ++ "        </html>\n"
  ++ "        "
/-! ## The note-synthesis stage: `generate_notes_with_gemini_api`
(src/core_processing.py lines 126-287).  The fixed prompt literal is split at
its two interpolation points into `promptPart1`, `promptPart2`,
`promptPart3` below. -/

/-- The module-level configuration state of the `google.generativeai`
library: `genai.configure(api_key=...)` stores the key here and
`generate_content` uses the stored key. -/
structure GenaiState where
  configuredKey : Option String

/-- One outbound `generate_content` network call: the credential attached to
it (the key configured at call time) and the full prompt text sent. -/
structure GeminiCall where
  key : Option String
  promptText : String

/-- Outcome of the external `model.generate_content(prompt)` call: either a
response object, where `hasText` models `hasattr(response, "text")`, `text`
its value and `debug` the `str(response)` rendering used in the debug
message, or a raised exception rendered as `msg`. -/
inductive GeminiOutcome where
  | resp (hasText : Bool) (text : String) (debug : String)
  | raises (msg : String)

/-- The composite request body `enhanced_prompt` built by
`generate_notes_with_gemini_api`: the fixed structural prompt with the style
directive (or its fixed fallback, when the directive is empty) and the raw
transcript interpolated verbatim at their two placeholders. -/
def enhanced_prompt (note_style_prompt text_input : String) : String :=
  promptPart1
    ++ (if note_style_prompt = "" then
          "Focus on making complex concepts accessible to beginners while maintaining technical accuracy."
        else note_style_prompt)
    ++ promptPart2 ++ text_input ++ promptPart3

/-- Shallow embedding of `generate_notes_with_gemini_api(text_input, api_key,
note_style_prompt="")`.  `outcome` is the behaviour of the external
`generate_content` call in case one is issued; `s` is the incoming
`google.generativeai` configuration state.  Returns the notes-or-error string
of the Python function, the configuration state after the invocation, and the
ordered list of outbound network calls issued, each with the credential that
was attached to it. -/
def generate_notes_with_gemini_api (text_input api_key note_style_prompt : String)
    (outcome : GeminiOutcome) (s : GenaiState) : String × GenaiState × List GeminiCall :=
  if text_input == "" || strContains text_input "Error:" || strContains text_input "no speech" then
    ("Cannot generate notes from empty or failed transcription.", s, [])
  else if api_key == "" then
    ("Gemini API key is not set. Cannot generate notes.", s, [])
  else
    let configured : GenaiState := ⟨some api_key⟩
    let call : GeminiCall := ⟨configured.configuredKey, enhanced_prompt note_style_prompt text_input⟩
    match outcome with
    | GeminiOutcome.raises msg =>
        ("Could not generate notes using Gemini API: " ++ msg, configured, [call])
    | GeminiOutcome.resp hasText text debug =>
        if hasText && !(text == "") then
          (text.trim, configured, [call])
        else
          ("Gemini API returned an empty or unreadable response. Debug info: " ++ debug,
           configured, [call])

/-! ## The document-rendering stage: `create_pdf_from_text`
(src/core_processing.py lines 291-433).  The claims here concern the
construction of the `html_content` document envelope; its template literal is
split at the two interpolation points into `htmlTemplatePre`,
`htmlTemplateMid` and `htmlTemplatePost` above. -/

/-- The `html_content` document envelope built by `create_pdf_from_text`:
the fixed template with the title and the markdown-rendered body interpolated
verbatim.  `bodyHtml` stands for the output of the external markdown
collaborator call `markdown.markdown(markdown_text, extensions=[...])`. -/
def create_pdf_html_content (title bodyHtml : String) : String :=
  htmlTemplatePre ++ title ++ htmlTemplateMid ++ bodyHtml ++ htmlTemplatePost

/-- Drop everything up to and including the first occurrence of `marker`;
`none` when `marker` does not occur. -/
def dropToAfter (marker : List Char) : List Char → Option (List Char)
  | [] => none
  | c :: rest =>
      if isPrefixSeq marker (c :: rest) then some ((c :: rest).drop marker.length)
      else dropToAfter marker rest

/-- The content strictly before the first occurrence of `marker`; `none` when
`marker` does not occur. -/
def takeUntil (marker : List Char) : List Char → Option (List Char)
  | [] => none
  | c :: rest =>
      if isPrefixSeq marker (c :: rest) then some []
      else (takeUntil marker rest).map (c :: ·)

/-- What an HTML consumer reads back as the document title: the text strictly
between the first `<title>` tag and the next `</title>` tag. -/
def extractTitle (html : String) : Option String :=
  (dropToAfter ("<title>".data) html.data).bind fun rest =>
    (takeUntil ("</title>".data) rest).map fun content => (⟨content⟩ : String)
/-! ## Helper lemmas about substring containment -/

/-- A prefix of `l` is still a prefix of `l ++ b`. -/
theorem isPrefixSeq_append_of_isPrefixSeq (n l b : List Char)
    (h : isPrefixSeq n l = true) : isPrefixSeq n (l ++ b) = true := by
  induction n generalizing l with
  | nil => simp [isPrefixSeq]
  | cons a as ih =>
    cases l with
    | nil => simp [isPrefixSeq] at h
    | cons c cs =>
      simp only [isPrefixSeq, Bool.and_eq_true, beq_iff_eq] at h
      simp only [List.cons_append, isPrefixSeq, Bool.and_eq_true, beq_iff_eq]
      exact ⟨h.1, ih cs h.2⟩

/-- Containment in the right part survives prepending. -/
theorem containsSeq_append_left (n a b : List Char) (h : containsSeq n b = true) :
    containsSeq n (a ++ b) = true := by
  induction a with
  | nil => simpa using h
  | cons c a' ih => simp [containsSeq, ih]

/-- Containment in the left part survives appending. -/
theorem containsSeq_append_right (n a b : List Char) (h : containsSeq n a = true) :
    containsSeq n (a ++ b) = true := by
  induction a with
  | nil =>
    cases n with
    | nil => cases b <;> simp [containsSeq, isPrefixSeq]
    | cons x xs => simp [containsSeq] at h
  | cons c a' ih =>
    simp only [containsSeq, Bool.or_eq_true] at h
    rcases h with h | h
    · simp only [List.cons_append, containsSeq, Bool.or_eq_true]
      exact Or.inl (isPrefixSeq_append_of_isPrefixSeq _ _ _ h)
    · simp only [List.cons_append, containsSeq, Bool.or_eq_true]
      exact Or.inr (ih h)

/-- `sub in a` implies `sub in a ++ b`. -/
theorem strContains_append_of_left (a b sub : String) (h : strContains a sub = true) :
    strContains (a ++ b) sub = true := by
  unfold strContains at h ⊢
  rw [String.data_append]
  exact containsSeq_append_right _ _ _ h

/-- `sub in b` implies `sub in a ++ b`. -/
theorem strContains_append_of_right (a b sub : String) (h : strContains b sub = true) :
    strContains (a ++ b) sub = true := by
  unfold strContains at h ⊢
  rw [String.data_append]
  exact containsSeq_append_left _ _ _ h

/-! ## Claims about the transcription stage -/

/-- Claim C4: for every audio path, callback choice and filesystem, when the
model handle is absent `transcribe_audio_whisper` returns the
model-not-loaded error string, which contains the sentinel `"Error:"`, and
its event trace contains no model `transcribe` call and no filesystem access
on the audio path. -/
theorem C4_model_absent_no_call_no_file_access (p : String) (cb : Bool)
    (fs : String → Option Nat) :
    (transcribe_audio_whisper p none cb fs).1
        = "Error: Whisper model not loaded. Cannot transcribe."
    ∧ strContains (transcribe_audio_whisper p none cb fs).1 "Error:" = true
    ∧ ((transcribe_audio_whisper p none cb fs).2.all
        fun e => !e.isModelCall && !e.isFileAccess) = true := by
  refine ⟨rfl, ?_, ?_⟩
  · show strContains "Error: Whisper model not loaded. Cannot transcribe." "Error:" = true
    decide
  · cases cb
    · show (([] : List TEvent).all fun e => !e.isModelCall && !e.isFileAccess) = true
      decide
    · show (([TEvent.progress 0]).all fun e => !e.isModelCall && !e.isFileAccess) = true
      decide

/-- Claim C5: for every loaded model handle, if the audio path names no file
or names a zero-byte file, the stage returns an error string containing
`"Error:"` (in the zero-byte case also containing `"empty"`), and its event
trace contains no model `transcribe` call. -/
theorem C5_missing_or_empty_file_no_model_call (p : String)
    (m : String → TranscribeOutcome) (cb : Bool) (fs : String → Option Nat)
    (h : fs p = none ∨ fs p = some 0) :
    strContains (transcribe_audio_whisper p (some m) cb fs).1 "Error:" = true
    ∧ (fs p = some 0 →
        strContains (transcribe_audio_whisper p (some m) cb fs).1 "empty" = true)
    ∧ ((transcribe_audio_whisper p (some m) cb fs).2.all
        fun e => !e.isModelCall) = true := by
  rcases h with h | h
  · refine ⟨?_, ?_, ?_⟩
    · simp only [transcribe_audio_whisper, h]
      exact strContains_append_of_left _ _ _ (strContains_append_of_left _ _ _ (by decide))
    · intro h'
      rw [h] at h'
      cases h'
    · simp only [transcribe_audio_whisper, h]
      cases cb <;> simp [TEvent.isModelCall]
  · refine ⟨?_, ?_, ?_⟩
    · simp only [transcribe_audio_whisper, h, if_pos rfl]
      exact strContains_append_of_left _ _ _ (strContains_append_of_left _ _ _ (by decide))
    · intro _
      simp only [transcribe_audio_whisper, h, if_pos rfl]
      exact strContains_append_of_right _ _ _ (by decide)
    · simp only [transcribe_audio_whisper, h, if_pos rfl]
      cases cb <;> simp [TEvent.isModelCall]

/-- Witness for claim C5 at a concrete zero-byte file. -/
theorem C5_missing_or_empty_file_no_model_call_witness :
    (fsZero "a.mp3" = none ∨ fsZero "a.mp3" = some 0)
    ∧ (strContains (transcribe_audio_whisper "a.mp3" (some okModel) true fsZero).1
          "Error:" = true
       ∧ (fsZero "a.mp3" = some 0 →
           strContains (transcribe_audio_whisper "a.mp3" (some okModel) true fsZero).1
             "empty" = true)
       ∧ ((transcribe_audio_whisper "a.mp3" (some okModel) true fsZero).2.all
            fun e => !e.isModelCall) = true) :=
  ⟨Or.inr rfl,
   C5_missing_or_empty_file_no_model_call "a.mp3" okModel true fsZero (Or.inr rfl)⟩

/-- Claim C2 (code-bug evidence): when the model `transcribe` call raises,
the exception is caught and an error string is returned, but that string —
`"An unexpected error occurred during Whisper transcription: ..."` — contains
neither of the sentinel substrings `"Error:"` and `"no speech"`, so the
substring convention the claim states (and on which app.py line 228 and
`generate_notes_with_gemini_api` line 134 branch) does not recognize this
failure. -/
theorem C2_exception_result_lacks_sentinels :
    (transcribe_audio_whisper "lecture.mp3" (some throwModel) true fsFive).1
        = "An unexpected error occurred during Whisper transcription: boom"
    ∧ strContains
        (transcribe_audio_whisper "lecture.mp3" (some throwModel) true fsFive).1
        "Error:" = false
    ∧ strContains
        (transcribe_audio_whisper "lecture.mp3" (some throwModel) true fsFive).1
        "no speech" = false := by
  refine ⟨by decide, by decide, by decide⟩

/-- Claim C7 (counterexample): an invocation with a callback whose model call
raises reports progress 10 and then progress 0 — a decreasing sequence — so
the reported percentages are not monotonically non-decreasing on every
invocation. -/
theorem C7_counterexample_progress_decreases_on_exception :
    progressValues
        (transcribe_audio_whisper "lecture.mp3" (some throwModel) true fsFive).2
      = [10, 0]
    ∧ nondecreasing (progressValues
        (transcribe_audio_whisper "lecture.mp3" (some throwModel) true fsFive).2) = false := by
  refine ⟨by decide, by decide⟩

/-- Claim C7 (amended): omitting the callback never changes the returned
string and reports no percentages; with a callback, a successful model call
reports exactly [10, 100] (10 at the start, 100 at completion), a raising
model call reports [10, 0] — the code resets the bar on failure, breaking
monotonicity there — and on every invocation whose model call does not raise
the reported percentages are monotonically non-decreasing. -/
theorem C7_amended_progress_reporting (p : String)
    (model? : Option (String → TranscribeOutcome)) (fs : String → Option Nat) :
    (transcribe_audio_whisper p model? false fs).1
        = (transcribe_audio_whisper p model? true fs).1
    ∧ progressValues (transcribe_audio_whisper p model? false fs).2 = []
    ∧ (∀ m text, model? = some m → fs p ≠ none → fs p ≠ some 0 →
        m p = TranscribeOutcome.ok text →
        progressValues (transcribe_audio_whisper p model? true fs).2 = [10, 100])
    ∧ (∀ m msg, model? = some m → fs p ≠ none → fs p ≠ some 0 →
        m p = TranscribeOutcome.raises msg →
        progressValues (transcribe_audio_whisper p model? true fs).2 = [10, 0])
    ∧ ((∀ m msg, model? = some m → m p ≠ TranscribeOutcome.raises msg) →
        nondecreasing
          (progressValues (transcribe_audio_whisper p model? true fs).2) = true) := by
  refine ⟨?_, ?_, ?_, ?_, ?_⟩
  · cases model? with
    | none => rfl
    | some m =>
      cases hfs : fs p with
      | none => simp [transcribe_audio_whisper, hfs]
      | some n =>
        by_cases hn : n = 0
        · simp [transcribe_audio_whisper, hfs, hn]
        · cases hm : m p with
          | raises msg => simp [transcribe_audio_whisper, hfs, hn, hm]
          | ok text =>
            by_cases ht : text.trim = "" <;>
              simp [transcribe_audio_whisper, hfs, hn, hm, ht]
  · cases model? with
    | none => rfl
    | some m =>
      cases hfs : fs p with
      | none => simp [transcribe_audio_whisper, hfs, progressValues]
      | some n =>
        by_cases hn : n = 0
        · simp [transcribe_audio_whisper, hfs, hn, progressValues]
        · cases hm : m p with
          | raises msg => simp [transcribe_audio_whisper, hfs, hn, hm, progressValues]
          | ok text =>
            by_cases ht : text.trim = "" <;>
              simp [transcribe_audio_whisper, hfs, hn, hm, ht, progressValues]
  · intro m text hmod hne h0 hok
    subst hmod
    cases hfs : fs p with
    | none => exact absurd hfs hne
    | some n =>
      by_cases hn : n = 0
      · exact absurd (hn ▸ hfs) h0
      · by_cases ht : text.trim = "" <;>
          simp [transcribe_audio_whisper, hfs, hn, hok, ht, progressValues]
  · intro m msg hmod hne h0 hraise
    subst hmod
    cases hfs : fs p with
    | none => exact absurd hfs hne
    | some n =>
      by_cases hn : n = 0
      · exact absurd (hn ▸ hfs) h0
      · simp [transcribe_audio_whisper, hfs, hn, hraise, progressValues]
  · intro hnr
    cases model? with
    | none => simp [transcribe_audio_whisper, progressValues, nondecreasing]
    | some m =>
      cases hfs : fs p with
      | none => simp [transcribe_audio_whisper, hfs, progressValues, nondecreasing]
      | some n =>
        by_cases hn : n = 0
        · simp [transcribe_audio_whisper, hfs, hn, progressValues, nondecreasing]
        · cases hm : m p with
          | raises msg => exact absurd hm (hnr m msg rfl)
          | ok text =>
            by_cases ht : text.trim = "" <;>
              simp [transcribe_audio_whisper, hfs, hn, hm, ht, progressValues,
                nondecreasing]

/-- Witness for the amended claim C7: a concrete successful run reports
[10, 100] and a concrete raising run reports [10, 0]. -/
theorem C7_amended_progress_reporting_witness :
    progressValues (transcribe_audio_whisper "lecture.mp3" (some okModel) true fsFive).2
        = [10, 100]
    ∧ progressValues (transcribe_audio_whisper "lecture.mp3" (some throwModel) true fsFive).2
        = [10, 0] :=
  ⟨(C7_amended_progress_reporting "lecture.mp3" (some okModel) fsFive).2.2.1
      okModel " photosynthesis converts light into chemical energy " rfl
      (by decide) (by decide) rfl,
   (C7_amended_progress_reporting "lecture.mp3" (some throwModel) fsFive).2.2.2.1
      throwModel "boom" rfl (by decide) (by decide) rfl⟩

/-! ## Claims about the note-synthesis stage -/

/-- Claim C1 (code-bug evidence): when the preconditions pass but the service
responds without usable text, the returned failure string — `"Gemini API
returned an empty or unreadable response. Debug info: ..."` — contains
neither of the sentinel substrings `"Cannot generate notes"` and `"Could not
generate notes"`, so the substring classification the claim states (and which
app.py line 136 performs) treats this failure as success. -/
theorem C1_empty_response_failure_lacks_sentinels :
    (generate_notes_with_gemini_api "photosynthesis converts light into chemical energy"
        "key123" "" (GeminiOutcome.resp true "" "resp-obj") ⟨none⟩).1
      = "Gemini API returned an empty or unreadable response. Debug info: resp-obj"
    ∧ strContains
        (generate_notes_with_gemini_api "photosynthesis converts light into chemical energy"
          "key123" "" (GeminiOutcome.resp true "" "resp-obj") ⟨none⟩).1
        "Cannot generate notes" = false
    ∧ strContains
        (generate_notes_with_gemini_api "photosynthesis converts light into chemical energy"
          "key123" "" (GeminiOutcome.resp true "" "resp-obj") ⟨none⟩).1
        "Could not generate notes" = false := by
  refine ⟨by decide, by decide, by decide⟩

/-- Claim C6: an empty or sentinel-bearing transcript is rejected with the
failed-transcription error and no network call; a non-empty sentinel-free
transcript with an empty credential is rejected with the missing-key error
and no network call; and the two error strings are distinct. -/
theorem C6_preconditions_block_network (t key style : String) (o : GeminiOutcome)
    (s : GenaiState) :
    ((t = "" ∨ strContains t "Error:" = true ∨ strContains t "no speech" = true) →
      generate_notes_with_gemini_api t key style o s
        = ("Cannot generate notes from empty or failed transcription.", s, []))
    ∧ ((t ≠ "" ∧ strContains t "Error:" = false ∧ strContains t "no speech" = false
          ∧ key = "") →
      generate_notes_with_gemini_api t key style o s
        = ("Gemini API key is not set. Cannot generate notes.", s, []))
    ∧ ("Cannot generate notes from empty or failed transcription." : String)
        ≠ "Gemini API key is not set. Cannot generate notes." := by
  refine ⟨?_, ?_, by decide⟩
  · intro h
    have hc : (t == "" || strContains t "Error:" || strContains t "no speech") = true := by
      rcases h with h | h | h <;> simp [h]
    simp [generate_notes_with_gemini_api, hc]
  · rintro ⟨h1, h2, h3, h4⟩
    have hc : (t == "" || strContains t "Error:" || strContains t "no speech") = false := by
      simp [h1, h2, h3]
    simp [generate_notes_with_gemini_api, hc, h4]

/-- Witness for claim C6: concrete rejected inputs for both preconditions. -/
theorem C6_preconditions_block_network_witness :
    generate_notes_with_gemini_api "" "key123" "" (GeminiOutcome.raises "down") ⟨none⟩
        = ("Cannot generate notes from empty or failed transcription.",
           (⟨none⟩ : GenaiState), [])
    ∧ generate_notes_with_gemini_api "photosynthesis converts light" "" ""
          (GeminiOutcome.raises "down") ⟨none⟩
        = ("Gemini API key is not set. Cannot generate notes.",
           (⟨none⟩ : GenaiState), []) :=
  ⟨(C6_preconditions_block_network "" "key123" "" (GeminiOutcome.raises "down")
      ⟨none⟩).1 (Or.inl rfl),
   (C6_preconditions_block_network "photosynthesis converts light" "" ""
      (GeminiOutcome.raises "down") ⟨none⟩).2.1
      ⟨by decide, by decide, by decide, rfl⟩⟩

/-- Claim C10: when the transcript is empty or sentinel-bearing and the
credential is also empty, the failed-transcription error is returned, not the
missing-credential error: the transcript precondition is checked first. -/
theorem C10_transcript_check_precedes_credential_check (t key style : String)
    (o : GeminiOutcome) (s : GenaiState)
    (h : t = "" ∨ strContains t "Error:" = true ∨ strContains t "no speech" = true)
    (hkey : key = "") :
    (generate_notes_with_gemini_api t key style o s).1
        = "Cannot generate notes from empty or failed transcription."
    ∧ (generate_notes_with_gemini_api t key style o s).1
        ≠ "Gemini API key is not set. Cannot generate notes." := by
  have hc : (t == "" || strContains t "Error:" || strContains t "no speech") = true := by
    rcases h with h | h | h <;> simp [h]
  constructor
  · simp [generate_notes_with_gemini_api, hc]
  · simp [generate_notes_with_gemini_api, hc]

/-- Witness for claim C10: an empty transcript together with an empty key. -/
theorem C10_transcript_check_precedes_credential_check_witness :
    (("" : String) = "" ∨ strContains "" "Error:" = true ∨ strContains "" "no speech" = true)
    ∧ ("" : String) = ""
    ∧ ((generate_notes_with_gemini_api "" "" "style" (GeminiOutcome.raises "down")
          ⟨some "stale"⟩).1
        = "Cannot generate notes from empty or failed transcription."
      ∧ (generate_notes_with_gemini_api "" "" "style" (GeminiOutcome.raises "down")
          ⟨some "stale"⟩).1
        ≠ "Gemini API key is not set. Cannot generate notes.") :=
  ⟨Or.inl rfl, rfl,
   C10_transcript_check_precedes_credential_check "" "" "style"
     (GeminiOutcome.raises "down") ⟨some "stale"⟩ (Or.inl rfl) rfl⟩

/-- Claim C9: under the preconditions, whatever the service outcome and the
incoming configuration state, exactly one network call is issued, and its
body is the fixed structural prompt with the style directive (or its fixed
fallback) and the entire raw transcript interpolated verbatim and
contiguously between transcript-independent context — no chunking,
truncation or size-dependent behaviour. -/
theorem C9_single_verbatim_request (t key style : String) (o : GeminiOutcome)
    (s : GenaiState)
    (h1 : t ≠ "") (h2 : strContains t "Error:" = false)
    (h3 : strContains t "no speech" = false) (h4 : key ≠ "") :
    (generate_notes_with_gemini_api t key style o s).2.2
        = [⟨some key,
            promptPart1
              ++ (if style = "" then
                    "Focus on making complex concepts accessible to beginners while maintaining technical accuracy."
                  else style)
              ++ promptPart2 ++ t ++ promptPart3⟩]
    ∧ (generate_notes_with_gemini_api t key style o s).2.2.length = 1 := by
  have hc : (t == "" || strContains t "Error:" || strContains t "no speech") = false := by
    simp [h1, h2, h3]
  have hk : (key == "") = false := by simp [h4]
  cases o with
  | raises msg => simp [generate_notes_with_gemini_api, hc, hk, enhanced_prompt]
  | resp hasText text debug =>
    by_cases hb : (hasText && !(text == "")) = true <;>
      simp [generate_notes_with_gemini_api, hc, hk, enhanced_prompt, hb]

/-- Witness for claim C9 at a concrete transcript, key and empty style
directive. -/
theorem C9_single_verbatim_request_witness :
    (generate_notes_with_gemini_api "photosynthesis converts light into chemical energy"
        "key123" "" (GeminiOutcome.resp true "# Title" "ok") ⟨none⟩).2.2
      = [⟨some "key123",
          promptPart1
            ++ (if ("" : String) = "" then
                  "Focus on making complex concepts accessible to beginners while maintaining technical accuracy."
                else "")
            ++ promptPart2 ++ "photosynthesis converts light into chemical energy"
            ++ promptPart3⟩]
    ∧ (generate_notes_with_gemini_api "photosynthesis converts light into chemical energy"
        "key123" "" (GeminiOutcome.resp true "# Title" "ok") ⟨none⟩).2.2.length = 1 :=
  C9_single_verbatim_request "photosynthesis converts light into chemical energy"
    "key123" "" (GeminiOutcome.resp true "# Title" "ok") ⟨none⟩
    (by decide) (by decide) (by decide) (by decide)

/-- Claim C8: every outbound call of an invocation carries exactly that
invocation's credential; at most one call is issued per invocation; and the
returned string and the issued calls are independent of the incoming
library-configuration state — no cached or ambient credential state
influences any invocation. -/
theorem C8_per_call_credential_no_ambient_state (t key style : String)
    (o : GeminiOutcome) (s1 s2 : GenaiState) :
    (∀ c ∈ (generate_notes_with_gemini_api t key style o s1).2.2, c.key = some key)
    ∧ (generate_notes_with_gemini_api t key style o s1).2.2.length ≤ 1
    ∧ (generate_notes_with_gemini_api t key style o s1).1
        = (generate_notes_with_gemini_api t key style o s2).1
    ∧ (generate_notes_with_gemini_api t key style o s1).2.2
        = (generate_notes_with_gemini_api t key style o s2).2.2 := by
  cases hc : (t == "" || strContains t "Error:" || strContains t "no speech") with
  | true => simp [generate_notes_with_gemini_api, hc]
  | false =>
    cases hk : (key == "") with
    | true => simp [generate_notes_with_gemini_api, hc, hk]
    | false =>
      cases o with
      | raises msg => simp [generate_notes_with_gemini_api, hc, hk]
      | resp hasText text debug =>
        by_cases hb : (hasText && !(text == "")) = true <;>
          simp [generate_notes_with_gemini_api, hc, hk, hb]

/-- Witness for claim C8 at a concrete invocation against two different
incoming configuration states. -/
theorem C8_per_call_credential_no_ambient_state_witness :
    (∀ c ∈ (generate_notes_with_gemini_api "photosynthesis converts light" "key123" "pithy"
        (GeminiOutcome.resp true "# T" "ok") ⟨none⟩).2.2, c.key = some "key123")
    ∧ (generate_notes_with_gemini_api "photosynthesis converts light" "key123" "pithy"
        (GeminiOutcome.resp true "# T" "ok") ⟨none⟩).2.2.length ≤ 1
    ∧ (generate_notes_with_gemini_api "photosynthesis converts light" "key123" "pithy"
        (GeminiOutcome.resp true "# T" "ok") ⟨none⟩).1
      = (generate_notes_with_gemini_api "photosynthesis converts light" "key123" "pithy"
        (GeminiOutcome.resp true "# T" "ok") ⟨some "stale"⟩).1
    ∧ (generate_notes_with_gemini_api "photosynthesis converts light" "key123" "pithy"
        (GeminiOutcome.resp true "# T" "ok") ⟨none⟩).2.2
      = (generate_notes_with_gemini_api "photosynthesis converts light" "key123" "pithy"
        (GeminiOutcome.resp true "# T" "ok") ⟨some "stale"⟩).2.2 :=
  C8_per_call_credential_no_ambient_state "photosynthesis converts light" "key123" "pithy"
    (GeminiOutcome.resp true "# T" "ok") ⟨none⟩ ⟨some "stale"⟩

/-! ## Claims about the document-rendering stage -/

set_option maxRecDepth 8000 in
/-- The template text before the title placeholder ends with the opening
`<title>` tag and contains no earlier occurrence of it, so a consumer
scanning for the first `<title>` lands exactly at the insertion point. -/
theorem dropToAfter_htmlTemplatePre (rest : List Char) :
    dropToAfter ("<title>".data) (htmlTemplatePre.data ++ rest) = some rest := by rfl

set_option maxRecDepth 8000 in
/-- The template text after the title placeholder starts with the closing
`</title>` tag. -/
theorem takeUntil_htmlTemplateMid (rest : List Char) :
    takeUntil ("</title>".data) (htmlTemplateMid.data ++ rest) = some [] := by rfl

/-- One unfolding step of `takeUntil` on a nonempty haystack. -/
theorem takeUntil_cons (m : List Char) (c : Char) (cs : List Char) :
    takeUntil m (c :: cs)
      = if isPrefixSeq m (c :: cs) then some [] else (takeUntil m cs).map (c :: ·) := rfl

/-- Scanning for a marker that starts with a character absent from `t` walks
past all of `t`. -/
theorem takeUntil_append_of_forall_ne (m' : List Char) (t rest : List Char)
    (h : ∀ c ∈ t, c ≠ '<') :
    takeUntil ('<' :: m') (t ++ rest) = (takeUntil ('<' :: m') rest).map (t ++ ·) := by
  induction t with
  | nil => simp
  | cons c t' ih =>
    have hc : c ≠ '<' := h c (List.mem_cons_self ..)
    have hih := ih fun x hx => h x (List.mem_cons_of_mem _ hx)
    have hpre : (isPrefixSeq ('<' :: m') (c :: (t' ++ rest))) = false := by
      simp only [isPrefixSeq, Bool.and_eq_false_iff]
      left
      simp [Ne.symm hc]
    show takeUntil ('<' :: m') (c :: (t' ++ rest))
        = (takeUntil ('<' :: m') rest).map ((c :: t') ++ ·)
    rw [takeUntil_cons, hpre]
    simp only [Bool.false_eq_true, if_false]
    rw [hih]
    cases takeUntil ('<' :: m') rest <;> simp

set_option maxRecDepth 8000 in
/-- Claim C3 (counterexample): the title is interpolated into the template
raw, so a title containing `</title>` terminates the title element early —
the consumer reads back a different title and the remainder of the title text
escapes the element. -/
theorem C3_counterexample_title_escapes_envelope :
    extractTitle (create_pdf_html_content
        "Lecture</title><script>alert(1)</script>" "<p>b</p>")
      = some "Lecture"
    ∧ extractTitle (create_pdf_html_content
        "Lecture</title><script>alert(1)</script>" "<p>b</p>")
      ≠ some "Lecture</title><script>alert(1)</script>" := by
  refine ⟨by decide, by decide⟩

/-- Claim C3 (amended): `create_pdf_from_text` interpolates the title
verbatim and unescaped into the `<title>` element of the template; for every
title free of the `<` character (hence free of markup), and every body, the
envelope is intact — the consumer reads back exactly the title — but this
fails for titles containing `</title>`. -/
theorem C3_amended_title_inserted_raw (t b : String)
    (h : ∀ c ∈ t.data, c ≠ '<') :
    extractTitle (create_pdf_html_content t b) = some t := by
  have hdata : (create_pdf_html_content t b).data
      = htmlTemplatePre.data
          ++ (t.data ++ (htmlTemplateMid.data ++ (b.data ++ htmlTemplatePost.data))) := by
    simp [create_pdf_html_content, String.data_append, List.append_assoc]
  have hrest : takeUntil ("</title>".data)
      (t.data ++ (htmlTemplateMid.data ++ (b.data ++ htmlTemplatePost.data)))
      = some t.data := by
    have hm : ("</title>".data) = '<' :: ("/title>".data) := rfl
    rw [hm, takeUntil_append_of_forall_ne _ _ _ h, ← hm, takeUntil_htmlTemplateMid]
    simp
  unfold extractTitle
  rw [hdata, dropToAfter_htmlTemplatePre]
  simp [hrest]

/-- Witness for the amended claim C3 at the default title of
`create_pdf_from_text`. -/
theorem C3_amended_title_inserted_raw_witness :
    (∀ c ∈ ("Audio Transcription Notes" : String).data, c ≠ '<')
    ∧ extractTitle (create_pdf_html_content "Audio Transcription Notes" "<p>hello</p>")
        = some "Audio Transcription Notes" :=
  ⟨by decide,
   C3_amended_title_inserted_raw "Audio Transcription Notes" "<p>hello</p>" (by decide)⟩

end LectureNotes
